import Mathlib

/-!
Verification of the OmniGen ComfyUI adapter (`main.py`, class `OmniGenInference`).

The adapter is a thin stateful wrapper around an external diffusion pipeline:
it checks/downloads model weight files, caches at most one pipeline instance
(together with the precision it was built for), preprocesses the prompt and the
up-to-three optional input images (tag substitution), delegates one call to the
pipeline, and manages a per-call temporary directory.

The embedding below is a shallow one:
* Python strings handled by the prompt machinery are `List Char` (`PyStr`) with
  hand-rolled, kernel-computable versions of `in`, `str.replace`, `str.strip`
  and `" ".join`;
* the external world (torch device probing, HTTP download results, pipeline
  construction, the pipeline call itself, `tempfile` names) is an `Env` record
  of oracle results, one field per external call site;
* the mutable class attributes `_model_instance` / `_current_precision` are an
  `AdapterState`; the model files on disk are an `FS`; the temporary artifacts
  under the adapter's `tmp/` directory are a `TmpState`;
* side effects relevant to the claims (clearing the cache, emptying the device
  cache, constructing a pipeline, calling it, creating/removing the temp dir)
  are recorded in order in an event log (`Ev`), so ordering claims are
  statements about the produced log;
* Python exceptions are `Except String`; the adapter re-wraps inner exception
  text exactly as the source's `except` blocks do.
-/

/-! ### Python string primitives over `List Char` -/

/-- Python strings of the prompt machinery, as plain character lists so that
every operation below is structurally recursive and kernel-computable. -/
abbrev PyStr := List Char

/-- Character list of a Lean string literal. -/
def str (s : String) : PyStr := s.data

/-- Predicate for prefix matching: does `s` start with `pat`? -/
def startsWithL : PyStr → PyStr → Bool
  | [], _ => true
  | _ :: _, [] => false
  | p :: ps, c :: cs => p == c && startsWithL ps cs

/-- Python's substring test `pat in s`. -/
def containsL : PyStr → PyStr → Bool
  | [], pat => pat.isEmpty
  | c :: rest, pat => startsWithL pat (c :: rest) || containsL rest pat

/-- Fuelled worker for `replaceL`; the fuel is the length of the scanned
string, which suffices for the non-empty patterns the adapter uses. -/
def replaceLAux : Nat → PyStr → PyStr → PyStr → PyStr
  | 0, s, _, _ => s
  | fuel + 1, s, pat, rep =>
    match s with
    | [] => []
    | c :: rest =>
      if startsWithL pat (c :: rest) then
        rep ++ replaceLAux fuel (List.drop pat.length (c :: rest)) pat rep
      else
        c :: replaceLAux fuel rest pat rep

/-- Python's `s.replace(pat, rep)`: replace every occurrence, leftmost first,
non-overlapping. -/
def replaceL (s pat rep : PyStr) : PyStr := replaceLAux s.length s pat rep

/-- Whitespace as stripped by `str.strip()` (the characters that occur here). -/
def isSpc (c : Char) : Bool := c == ' ' || c == '\t' || c == '\n' || c == '\r'

/-- Python's `s.strip()`. -/
def stripL (s : PyStr) : PyStr := ((s.dropWhile isSpc).reverse.dropWhile isSpc).reverse

/-- Python's `sep.join(parts)`. -/
def joinSep : PyStr → List PyStr → PyStr
  | _, [] => []
  | _, [x] => x
  | sep, x :: y :: rest => x ++ sep ++ joinSep sep (y :: rest)

/-! ### Data model -/

/-- Image tensors are opaque to the adapter; only identity matters. -/
abbrev Img := Nat

/-- Pipeline objects are opaque to the adapter; only identity matters. -/
abbrev Pipe := Nat

/-- The on-disk model weight files (`Paths.MODEL_FILE_FP16`,
`Paths.MODEL_FILE_FP8`). -/
structure FS where
  fp16Exists : Bool
  fp8Exists : Bool
deriving Repr, DecidableEq

/-- The class attributes `_model_instance` (line 30) and `_current_precision`
(line 31): the single cached pipeline slot and the precision it was built
with. -/
structure AdapterState where
  modelInstance : Option Pipe
  currentPrecision : Option String
deriving Repr, DecidableEq

/-- Temporary artifacts under `Paths.TMP_DIR`: whether the per-call directory
`self._temp_dir` currently exists, and the files created directly in
`Paths.TMP_DIR` (where `save_input_img` places the saved input images). -/
structure TmpState where
  tempDirLive : Bool
  files : List String
deriving Repr, DecidableEq

/-- Observable side effects of one `generation` call, in program order. -/
inductive Ev where
  /-- Event: `_setup_temp_dir` created the per-call temporary directory. -/
  | setupTmp
  /-- Event: `generation` set `_model_instance`/`_current_precision` to `None`. -/
  | clearInstance
  /-- Event: `generation` called `_empty_cache()` (device cache emptied). -/
  | emptyCache
  /-- Event: `_get_pipeline` returned the cached instance. -/
  | cacheHit
  /-- Event: `_get_pipeline` constructed a new pipeline for this precision and stored
  it in the cache slot. -/
  | construct (precision : String)
  /-- the pipeline object was called with this prompt and these input image
  paths. -/
  | pipeCall (prompt : PyStr) (inputImages : Option (List String))
  /-- Event: `_cleanup_temp_dir` removed the per-call temporary directory. -/
  | cleanupTmp
deriving Repr, DecidableEq

/-- Oracle results of the external calls the adapter makes, one field per call
site. -/
structure Env where
  /-- HTTP status of `requests.get` on the FP8 weight URL (line 78). -/
  fp8Status : Nat
  /-- whether `snapshot_download` leaves `MODEL_FILE_FP16` on disk (line 91). -/
  fp16DownloadOk : Bool
  /-- result of `_auto_select_precision()` (depends on CUDA/VRAM probing). -/
  autoPrecision : String
  /-- result of `save_input_img(image_1)`: the temp file name on success,
  `none` when the save raised and was swallowed (lines 161-170). -/
  save1 : Option String
  /-- result of `save_input_img(image_2)`. -/
  save2 : Option String
  /-- result of `save_input_img(image_3)`. -/
  save3 : Option String
  /-- result of `OmniGenPipeline.from_pretrained` (line 221); `none` models a
  `None` return (or a raise), which becomes a RuntimeError. -/
  fromPretrained : Option Pipe
  /-- result of `pipe.to(device)` (line 241); `none` models a raise or a `None`
  return, after which the original pipeline object is kept. -/
  moveResult : Option Pipe
  /-- whether `callable(pipe)` holds after device placement (line 253). -/
  pipeCallable : Bool
  /-- result of the delegated pipeline call `pipe(...)` (line 310). -/
  pipeResult : Except String Nat
deriving Repr

/-- Value of the class attributes at class definition time (lines 30-31):
no instance is loaded until first needed. -/
def initialAdapter : AdapterState := ⟨none, none⟩

/-- Path string of the weight file `_get_pipeline` checks for a precision
(line 214). -/
def modelFile (mp : String) : String :=
  if mp = "FP8" then "models/model-fp8_e4m3fn.safetensors" else "models/model.safetensors"

/-- Existence of `modelFile mp` on disk (`os.path.exists`). -/
def fileExists (fs : FS) (mp : String) : Bool :=
  if mp = "FP8" then fs.fp8Exists else fs.fp16Exists

/-! ### `_ensure_model_exists` (lines 69-111) -/

/-- Embedding of `_ensure_model_exists(model_precision)`: conditionally download the FP8
file, conditionally download the FP16 snapshot, then verify; every inner
exception is re-wrapped by the outer `except` block (lines 109-111). -/
def ensureModelExists (mp : Option String) (fs : FS) (env : Env) : Except String FS :=
  let inner : Except String FS :=
    match (if mp = some "FP8" && !fs.fp8Exists then
            (if env.fp8Status = 200 then Except.ok { fs with fp8Exists := true }
             else Except.error ("Failed to download FP8 model: " ++ Nat.repr env.fp8Status))
           else Except.ok fs) with
    | Except.error e => Except.error e
    | Except.ok fs1 =>
      let fs2 := if !fs1.fp16Exists then { fs1 with fp16Exists := env.fp16DownloadOk } else fs1
      if mp = some "FP8" && !fs2.fp8Exists then Except.error "FP8 model download failed"
      else if !fs2.fp16Exists then Except.error "FP16 model download failed"
      else Except.ok fs2
  match inner with
  | Except.ok fs' => Except.ok fs'
  | Except.error e => Except.error ("Failed to initialize OmniGen model: " ++ e)

/-! ### `_get_pipeline` (lines 207-268) -/

/-- Cache-miss path of `_get_pipeline`: file check, `from_pretrained`, device
placement with fallback to the original object, callability check, then store
instance and precision (lines 213-260); every raise is re-wrapped by the outer
`except` block (lines 266-268). -/
def getPipelineBuild (env : Env) (s : AdapterState) (fs : FS) (mp : String) :
    Except String Pipe × AdapterState × List Ev :=
  if fileExists fs mp = false then
    (Except.error ("Failed to create pipeline: Model file not found: " ++ modelFile mp), s, [])
  else
    match env.fromPretrained with
    | none => (Except.error "Failed to create pipeline: Initial pipeline creation failed", s, [])
    | some pipe0 =>
      let pipe := env.moveResult.getD pipe0
      if env.pipeCallable = false then
        (Except.error "Failed to create pipeline: Pipeline is not callable after initialization", s, [])
      else
        (Except.ok pipe, ⟨some pipe, some mp⟩, [Ev.construct mp])

/-- Embedding of `_get_pipeline(model_precision)`: return the cached instance when one is
present and the cached precision matches (lines 209-211), otherwise build. -/
def getPipeline (env : Env) (s : AdapterState) (fs : FS) (mp : String) :
    Except String Pipe × AdapterState × List Ev :=
  match s.modelInstance with
  | some pipe =>
    if s.currentPrecision = some mp then (Except.ok pipe, s, [Ev.cacheHit])
    else getPipelineBuild env s fs mp
  | none => getPipelineBuild env s fs mp

/-! ### Prompt and image preprocessing (lines 161-194) -/

/-- Embedding of `save_input_img(image)` (lines 161-170): writes a fresh file into
`Paths.TMP_DIR` and returns its name; on any exception it returns `None`
(the oracle `res` is the outcome of the write). -/
def saveInputImg (res : Option String) (tmp : TmpState) : Option String × TmpState :=
  match res with
  | some path => (some path, { tmp with files := tmp.files ++ [path] })
  | none => (none, tmp)

/-- The substring `f"image_{i}"` (line 187). -/
def keyU (i : Nat) : PyStr := str "image_" ++ Nat.toDigits 10 i

/-- The substring `f"image{i}"` (line 189). -/
def keyP (i : Nat) : PyStr := str "image" ++ Nat.toDigits 10 i

/-- The pipeline tag `f"<img><|image_{i}|></img>"` (lines 178 and 186). -/
def imgTag (i : Nat) : PyStr := str "<img><|" ++ keyU i ++ str "|></img>"

/-- Tag handling for one saved image `i` (lines 186-192): replace `image_i`,
else replace `imagei`, else append the tag when it is not already present. -/
def tagStep (i : Nat) (prompt : PyStr) : PyStr :=
  if containsL prompt (keyU i) then replaceL prompt (keyU i) (imgTag i)
  else if containsL prompt (keyP i) then replaceL prompt (keyP i) (imgTag i)
  else if containsL prompt (imgTag i) = false then prompt ++ str " " ++ imgTag i
  else prompt

/-- Tags of the supplied images, 1-based, for the auto-generated prompt
(line 178: `enumerate(images)` with `i+1` inside the tag). -/
def autoPrompt : Nat → List (Option Img) → List PyStr
  | _, [] => []
  | i, none :: rest => autoPrompt (i + 1) rest
  | i, some _ :: rest => imgTag (i + 1) :: autoPrompt (i + 1) rest

/-- The `for i, img in enumerate(images, 1)` loop (lines 181-192), with each
image paired with its `save_input_img` oracle outcome. -/
def ppLoop : Nat → List (Option Img × Option String) → PyStr → List String → TmpState →
    PyStr × List String × TmpState
  | _, [], prompt, paths, tmp => (prompt, paths, tmp)
  | i, (none, _) :: rest, prompt, paths, tmp => ppLoop (i + 1) rest prompt paths tmp
  | i, (some _, res) :: rest, prompt, paths, tmp =>
    match saveInputImg res tmp with
    | (some path, tmp') => ppLoop (i + 1) rest (tagStep i prompt) (paths ++ [path]) tmp'
    | (none, tmp') => ppLoop (i + 1) rest prompt paths tmp'

/-- Truthiness scan performed by `any(images)` at line 177: `any` calls
`bool()` on each element in order; `None` is falsy and is skipped, but a
supplied image is a host IMAGE tensor with a batch dimension and more than one
element (line 164 indexes `image.numpy()[0]`), so `torch.Tensor.__bool__`
raises RuntimeError at the first present image. -/
def anyImages : List (Option Img) → Except String Bool
  | [] => Except.ok false
  | none :: rest => anyImages rest
  | some _ :: _ =>
    Except.error "Boolean value of Tensor with more than one element is ambiguous"

/-- Embedding of `_process_prompt_and_images(prompt, images)` (lines 172-194):
evaluate the guard `not prompt and any(images)` (the `and` short-circuits, so
`any` only runs on an empty prompt, and it raises on the first supplied
tensor); on a false guard keep the prompt (line 178's tag concatenation is
unreachable for real tensor inputs), run the per-image loop, and strip the
result. -/
def processPromptAndImages (saves : List (Option String)) (prompt0 : PyStr)
    (images : List (Option Img)) (tmp : TmpState) :
    Except String (PyStr × List String × TmpState) :=
  match (if prompt0.isEmpty then anyImages images else Except.ok false) with
  | Except.error e => Except.error e
  | Except.ok anyImg =>
    let prompt := if prompt0.isEmpty && anyImg
      then joinSep (str " ") (autoPrompt 0 images) else prompt0
    let r := ppLoop 1 (images.zip saves) prompt [] tmp
    Except.ok (stripL r.1, r.2.1, r.2.2)

/-! ### `generation` (lines 270-337) -/

/-- Line 276-277: replace `"Auto"` by the VRAM-probed choice. -/
def resolvePrecision (env : Env) (mp : String) : String :=
  if mp = "Auto" then env.autoPrecision else mp

/-- Lines 285-290: when an instance is cached for a different precision, clear
both attributes and empty the device cache. -/
def clearIfMismatch (s : AdapterState) (mp : String) : AdapterState × List Ev :=
  match s.modelInstance with
  | some _ =>
    if s.currentPrecision ≠ some mp then (⟨none, none⟩, [Ev.clearInstance, Ev.emptyCache])
    else (s, [])
  | none => (s, [])

/-- Line 296: `self.PRESET_PROMPTS[preset_prompt]`; a missing key raises
`KeyError`. -/
def lookupPreset (presets : List (String × PyStr)) (k : String) : Except String PyStr :=
  match presets.lookup k with
  | some v => Except.ok v
  | none => Except.error ("KeyError: " ++ k)

/-- Outcome of one `generation` call: the value returned or exception raised,
the class attributes, the temporary artifacts, and the event log. -/
structure GenResult where
  output : Except String Nat
  adapter : AdapterState
  tmp : TmpState
  log : List Ev
deriving Repr

/-- The `try` block of `generation` (lines 274-331), in source order: resolve
`"Auto"`, create the per-call temp dir, clear on precision mismatch, compute
the working prompt (line 296), get the pipeline (line 297), preprocess prompt
and images (line 304), delegate to the pipeline, return its output. The
device/kv-cache bookkeeping (lines 280-282, 299-301) only feeds the external
call and the logs and is not modelled. -/
def generationBody (env : Env) (presets : List (String × PyStr))
    (presetPrompt modelPrecision : String) (prompt : PyStr)
    (image1 image2 image3 : Option Img)
    (fs : FS) (s0 : AdapterState) (tmp0 : TmpState) : GenResult :=
  let mp := resolvePrecision env modelPrecision
  let tmp1 : TmpState := { tmp0 with tempDirLive := true }
  let cl := clearIfMismatch s0 mp
  let log2 := Ev.setupTmp :: cl.2
  match (if (stripL prompt).isEmpty = false then Except.ok (stripL prompt)
         else lookupPreset presets presetPrompt) with
  | Except.error e => ⟨Except.error e, cl.1, tmp1, log2⟩
  | Except.ok workPrompt =>
    match getPipeline env cl.1 fs mp with
    | (Except.error e, s2, log3) => ⟨Except.error e, s2, tmp1, log2 ++ log3⟩
    | (Except.ok _, s2, log3) =>
      match processPromptAndImages [env.save1, env.save2, env.save3] workPrompt
          [image1, image2, image3] tmp1 with
      | Except.error e => ⟨Except.error e, s2, tmp1, log2 ++ log3⟩
      | Except.ok pr =>
        let inputImages := if pr.2.1.isEmpty then none else some pr.2.1
        let log4 := log2 ++ log3 ++ [Ev.pipeCall pr.1 inputImages]
        match env.pipeResult with
        | Except.ok out => ⟨Except.ok out, s2, pr.2.2, log4⟩
        | Except.error e => ⟨Except.error e, s2, pr.2.2, log4⟩

/-- Embedding of `generation` (lines 270-337): run the `try` block; the `except` block
re-raises the same exception (line 335) and the `finally` block removes the
per-call temporary directory (line 337) on every path. -/
def generation (env : Env) (presets : List (String × PyStr))
    (presetPrompt modelPrecision : String) (prompt : PyStr)
    (image1 image2 image3 : Option Img)
    (fs : FS) (s0 : AdapterState) (tmp0 : TmpState) : GenResult :=
  let r := generationBody env presets presetPrompt modelPrecision prompt
    image1 image2 image3 fs s0 tmp0
  ⟨r.output, r.adapter, { r.tmp with tempDirLive := false }, r.log ++ [Ev.cleanupTmp]⟩

/-- The class-state invariant of claim C8: the cache slot and the cached
precision are populated together. -/
def AdapterInv (s : AdapterState) : Prop :=
  s.modelInstance = none ↔ s.currentPrecision = none

/-! ### Concrete test vectors -/

/-- An environment in which every external call succeeds. -/
def envOk : Env :=
  { fp8Status := 200
    fp16DownloadOk := true
    autoPrecision := "FP16"
    save1 := some "in1.png"
    save2 := none
    save3 := none
    fromPretrained := some 11
    moveResult := some 12
    pipeCallable := true
    pipeResult := Except.ok 99 }

/-- Like `envOk` but the delegated pipeline call raises. -/
def envBoom : Env := { envOk with pipeResult := Except.error "boom" }

/-- The default preset table (`{"None": ""}`, lines 39-44). -/
def presets0 : List (String × PyStr) := [("None", [])]

/-! ### Shape lemmas -/

/-- Shape of `clearIfMismatch`: it either leaves the attributes alone or clears both and
empties the device cache. -/
theorem clearIfMismatch_cases (s : AdapterState) (mp : String) :
    clearIfMismatch s mp = (s, []) ∨
      clearIfMismatch s mp = (⟨none, none⟩, [Ev.clearInstance, Ev.emptyCache]) := by
  unfold clearIfMismatch
  rcases s with ⟨mi, cp⟩
  cases mi with
  | none => exact Or.inl rfl
  | some p =>
    by_cases h : cp = some mp
    · simp [h]
    · simp [h]

/-- Shape of `_get_pipeline`: it has exactly three outcomes: cache hit (state untouched),
error (state untouched, nothing logged), or a fresh construction that fills
both cache attributes. -/
theorem getPipeline_cases (env : Env) (s : AdapterState) (fs : FS) (mp : String) :
    (∃ pipe, s.modelInstance = some pipe ∧ s.currentPrecision = some mp ∧
        getPipeline env s fs mp = (Except.ok pipe, s, [Ev.cacheHit])) ∨
    (∃ e, getPipeline env s fs mp = (Except.error e, s, [])) ∨
    (∃ pipe, getPipeline env s fs mp = (Except.ok pipe, ⟨some pipe, some mp⟩, [Ev.construct mp])) := by
  unfold getPipeline getPipelineBuild
  rcases s with ⟨mi, cp⟩
  cases mi with
  | none =>
    by_cases hf : fileExists fs mp = false
    · simp [hf]
    · simp [hf]
      cases hp : env.fromPretrained with
      | none => simp
      | some pipe0 =>
        by_cases hc : env.pipeCallable = false
        · simp [hc]
        · simp [hc]
  | some pipe =>
    by_cases h : cp = some mp
    · simp [h]
    · simp [h]
      by_cases hf : fileExists fs mp = false
      · simp [hf]
      · simp [hf]
        cases hp : env.fromPretrained with
        | none => simp
        | some pipe0 =>
          by_cases hc : env.pipeCallable = false
          · simp [hc]
          · simp [hc]

/-! ### Claim C1 -/

/-- Claim C1: the adapter holds at most one loaded pipeline (the single
`modelInstance` slot of `AdapterState`), the slot is empty at class definition
time so the instance is created lazily on first need, and `_get_pipeline p` on
a populated slot whose cached precision equals `p` returns the cached instance
with no state change and no construction. -/
theorem C1_single_slot_cache_hit (env : Env) (s : AdapterState) (fs : FS) (mp : String)
    (pipe : Pipe) (h1 : s.modelInstance = some pipe) (h2 : s.currentPrecision = some mp) :
    initialAdapter.modelInstance = none ∧
      getPipeline env s fs mp = (Except.ok pipe, s, [Ev.cacheHit]) := by
  refine ⟨rfl, ?_⟩
  unfold getPipeline
  rw [h1, h2]
  simp

/-- Witness for C1 at a concrete cached state. -/
theorem C1_single_slot_cache_hit_witness :
    initialAdapter.modelInstance = none ∧
      getPipeline envOk ⟨some 7, some "FP16"⟩ ⟨true, true⟩ "FP16"
        = (Except.ok 7, ⟨some 7, some "FP16"⟩, [Ev.cacheHit]) :=
  C1_single_slot_cache_hit envOk ⟨some 7, some "FP16"⟩ ⟨true, true⟩ "FP16" 7 rfl rfl

/-! ### Claim C5 -/

/-- Claim C5: `_ensure_model_exists p` returns normally only with the FP16
file present and, for `p = FP8`, the FP8 file present too; when a required
file cannot be obtained (non-200 FP8 response, or the FP16 file still missing
after the download attempt) it raises instead of returning. -/
theorem C5_ensure_model_postcondition (mp : Option String) (fs : FS) (env : Env) :
    (∀ fs', ensureModelExists mp fs env = Except.ok fs' →
        fs'.fp16Exists = true ∧ (mp = some "FP8" → fs'.fp8Exists = true)) ∧
    (mp = some "FP8" → fs.fp8Exists = false → env.fp8Status ≠ 200 →
        ∃ e, ensureModelExists mp fs env = Except.error e) ∧
    (fs.fp16Exists = false → env.fp16DownloadOk = false →
        ∃ e, ensureModelExists mp fs env = Except.error e) := by
  rcases fs with ⟨f16, f8⟩
  by_cases hmp : mp = some "FP8" <;>
    by_cases h200 : env.fp8Status = 200 <;>
      cases hok : env.fp16DownloadOk <;>
        cases f16 <;> cases f8 <;>
          simp [ensureModelExists, hmp, h200, hok]

/-- Witness for C5: a successful FP8 run satisfies the postcondition, and a
failing download (status 404 on a missing FP8 file) raises. -/
theorem C5_ensure_model_postcondition_witness :
    ((⟨true, true⟩ : FS).fp16Exists = true ∧
      (some "FP8" = some "FP8" → (⟨true, true⟩ : FS).fp8Exists = true)) ∧
    (∃ e, ensureModelExists (some "FP8") ⟨false, false⟩ { envOk with fp8Status := 404 }
        = Except.error e) :=
  ⟨(C5_ensure_model_postcondition (some "FP8") ⟨false, false⟩ envOk).1 ⟨true, true⟩ rfl,
   (C5_ensure_model_postcondition (some "FP8") ⟨false, false⟩
      { envOk with fp8Status := 404 }).2.1 rfl rfl (by decide)⟩

/-! ### Claim C8 -/

/-- Shape of `generation` on the cache attributes: it leaves them as the
clearing step set them (when no pipeline was fetched) or exactly as
`_get_pipeline` left them. -/
theorem generation_adapter_cases (env : Env) (presets : List (String × PyStr))
    (pp mp0 : String) (prompt : PyStr) (i1 i2 i3 : Option Img)
    (fs : FS) (s : AdapterState) (tmp : TmpState) :
    (generation env presets pp mp0 prompt i1 i2 i3 fs s tmp).adapter
        = (clearIfMismatch s (resolvePrecision env mp0)).1 ∨
    (generation env presets pp mp0 prompt i1 i2 i3 fs s tmp).adapter
        = (getPipeline env (clearIfMismatch s (resolvePrecision env mp0)).1 fs
            (resolvePrecision env mp0)).2.1 := by
  unfold generation generationBody
  dsimp only
  rcases hw : (if (stripL prompt).isEmpty = false then Except.ok (stripL prompt)
      else lookupPreset presets pp) with e | wp
  · exact Or.inl rfl
  · dsimp only
    rcases hg : getPipeline env (clearIfMismatch s (resolvePrecision env mp0)).1 fs
        (resolvePrecision env mp0) with ⟨r1, s2, log3⟩
    cases r1 with
    | error e => exact Or.inr rfl
    | ok pipe =>
      dsimp only
      rcases hp : processPromptAndImages [env.save1, env.save2, env.save3] wp
          [i1, i2, i3] ⟨true, tmp.files⟩ with e2 | pr
      · exact Or.inr rfl
      · dsimp only
        cases hr : env.pipeResult with
        | ok out => exact Or.inr rfl
        | error e3 => exact Or.inr rfl

/-- Preservation: `clearIfMismatch` preserves the class-state invariant. -/
theorem clearIfMismatch_inv (s : AdapterState) (mp : String) (h : AdapterInv s) :
    AdapterInv (clearIfMismatch s mp).1 := by
  rcases clearIfMismatch_cases s mp with hc | hc <;> rw [hc]
  · exact h
  · exact ⟨fun _ => rfl, fun _ => rfl⟩

/-- Preservation: `_get_pipeline` preserves the class-state invariant. -/
theorem getPipeline_inv (env : Env) (s : AdapterState) (fs : FS) (mp : String)
    (h : AdapterInv s) : AdapterInv (getPipeline env s fs mp).2.1 := by
  rcases getPipeline_cases env s fs mp with ⟨p, _, _, hg⟩ | ⟨e, hg⟩ | ⟨p, hg⟩ <;> rw [hg]
  · exact h
  · exact h
  · exact ⟨(fun h' => by cases h'), (fun h' => by cases h')⟩

/-- Claim C8: the invariant `AdapterInv` (`_model_instance` is `None` exactly
when `_current_precision` is `None`) holds at class definition time, is
preserved by `_get_pipeline` and by `generation`, and whenever `_get_pipeline`
stores a freshly built instance (a `construct` event), the stored precision is
exactly the precision argument of that call; when it builds nothing, the
attributes are unchanged. -/
theorem C8_state_invariant :
    AdapterInv initialAdapter ∧
    (∀ env s fs mp, AdapterInv s →
        AdapterInv (getPipeline env s fs mp).2.1 ∧
        (Ev.construct mp ∈ (getPipeline env s fs mp).2.2 →
            (getPipeline env s fs mp).2.1.currentPrecision = some mp ∧
            (getPipeline env s fs mp).2.1.modelInstance.isSome = true) ∧
        ((∀ p, Ev.construct p ∉ (getPipeline env s fs mp).2.2) →
            (getPipeline env s fs mp).2.1 = s)) ∧
    (∀ env presets pp mp0 prompt i1 i2 i3 fs s tmp, AdapterInv s →
        AdapterInv (generation env presets pp mp0 prompt i1 i2 i3 fs s tmp).adapter) := by
  refine ⟨⟨fun _ => rfl, fun _ => rfl⟩, fun env s fs mp h => ?_,
    fun env presets pp mp0 prompt i1 i2 i3 fs s tmp h => ?_⟩
  · refine ⟨getPipeline_inv env s fs mp h, ?_, ?_⟩ <;>
      rcases getPipeline_cases env s fs mp with ⟨p, _, _, hg⟩ | ⟨e, hg⟩ | ⟨p, hg⟩ <;> rw [hg] <;>
        intro hmem
    · simp at hmem
    · simp at hmem
    · exact ⟨rfl, rfl⟩
    · rfl
    · rfl
    · exact absurd (by simp) (hmem mp)
  · rcases generation_adapter_cases env presets pp mp0 prompt i1 i2 i3 fs s tmp with hA | hA <;>
      rw [hA]
    · exact clearIfMismatch_inv s _ h
    · exact getPipeline_inv env _ fs _ (clearIfMismatch_inv s _ h)

/-- Witness for C8: the invariant survives a concrete construction and a
concrete full generation call. -/
theorem C8_state_invariant_witness :
    AdapterInv (getPipeline envOk initialAdapter ⟨true, true⟩ "FP16").2.1 ∧
    AdapterInv (generation envOk presets0 "None" "FP16" (str "hi") none none none
        ⟨true, true⟩ initialAdapter ⟨false, []⟩).adapter :=
  ⟨(C8_state_invariant.2.1 envOk initialAdapter ⟨true, true⟩ "FP16"
      ⟨(fun _ => rfl), (fun _ => rfl)⟩).1,
   C8_state_invariant.2.2 envOk presets0 "None" "FP16" (str "hi") none none none
      ⟨true, true⟩ initialAdapter ⟨false, []⟩ ⟨(fun _ => rfl), (fun _ => rfl)⟩⟩

/-! ### Claim C2 -/

/-- When the cache misses and the requested weight file is absent,
`_get_pipeline` raises without touching the state. -/
theorem getPipeline_no_file (env : Env) (s : AdapterState) (fs : FS) (mp : String)
    (hmi : s.modelInstance = none) (hf : fileExists fs mp = false) :
    getPipeline env s fs mp =
      (Except.error ("Failed to create pipeline: Model file not found: " ++ modelFile mp), s, []) := by
  unfold getPipeline getPipelineBuild
  rw [hmi]
  simp [hf]

/-- Counterexample to claim C2: a `generation` call requesting FP8 with the
FP8 file absent (and the FP16 file present) raises the file-not-found
RuntimeError instead of downloading the file — `_ensure_model_exists` is only
invoked from `__init__` with no precision argument, and `generation` has no
download path at all (its result carries no new `FS`). -/
theorem C2_counterexample :
    (generation envOk presets0 "None" "FP8" (str "hi") none none none
        ⟨true, false⟩ initialAdapter ⟨false, []⟩).output
      = Except.error "Failed to create pipeline: Model file not found: models/model-fp8_e4m3fn.safetensors" := rfl

/-- Claim C2 as amended: before a pipeline is constructed for `p`, the weight
file for `p` does exist (construction is guarded by an existence check that
raises otherwise), and `__init__`'s `_ensure_model_exists()` call guarantees
the FP16 file; but a generation call requesting FP8 while the FP8 file is
absent raises rather than downloading. -/
theorem C2_amended_no_download :
    (∀ env s fs mp, Ev.construct mp ∈ (getPipeline env s fs mp).2.2 → fileExists fs mp = true) ∧
    (∀ fs env fs', ensureModelExists none fs env = Except.ok fs' → fs'.fp16Exists = true) ∧
    (∀ env presets pp prompt i1 i2 i3 fs s tmp,
        fs.fp8Exists = false → s.modelInstance = none →
        ∃ e, (generation env presets pp "FP8" prompt i1 i2 i3 fs s tmp).output
          = Except.error e) := by
  refine ⟨fun env s fs mp hmem => ?_, fun fs env fs' hok => ?_,
    fun env presets pp prompt i1 i2 i3 fs s tmp h8 hmi => ?_⟩
  · by_cases hf : fileExists fs mp = true
    · exact hf
    · exfalso
      have hf' : fileExists fs mp = false := by simpa using hf
      unfold getPipeline getPipelineBuild at hmem
      rcases s with ⟨mi, cp⟩
      cases mi with
      | none => simp [hf'] at hmem
      | some pipe =>
        by_cases hcp : cp = some mp
        · simp [hcp] at hmem
        · simp [hcp, hf'] at hmem
  · rcases fs with ⟨f16, f8⟩
    cases f16 <;> cases hok2 : env.fp16DownloadOk <;>
      simp [ensureModelExists, hok2] at hok <;> simp [← hok]
  · have hmp : resolvePrecision env "FP8" = "FP8" := by simp [resolvePrecision]
    have hcl : clearIfMismatch s "FP8" = (s, []) := by
      unfold clearIfMismatch
      rw [hmi]
    have hf : fileExists fs "FP8" = false := by simp [fileExists, h8]
    unfold generation generationBody
    split
    · rename_i e heq
      exact ⟨e, rfl⟩
    · dsimp only
      rw [hmp, hcl]
      rw [getPipeline_no_file env s fs "FP8" hmi hf]
      exact ⟨_, rfl⟩

/-- Witness for C2's amended theorem at concrete inputs. -/
theorem C2_amended_no_download_witness :
    fileExists ⟨true, true⟩ "FP16" = true ∧
    (⟨true, true⟩ : FS).fp16Exists = true ∧
    (∃ e, (generation envOk presets0 "None" "FP8" (str "hi") none none none
        ⟨true, false⟩ initialAdapter ⟨false, []⟩).output = Except.error e) :=
  ⟨C2_amended_no_download.1 envOk initialAdapter ⟨true, true⟩ "FP16" (by decide),
   C2_amended_no_download.2.1 ⟨false, true⟩ envOk ⟨true, true⟩ (by rfl),
   C2_amended_no_download.2.2 envOk presets0 "None" (str "hi") none none none
     ⟨true, false⟩ initialAdapter ⟨false, []⟩ rfl rfl⟩

/-! ### Substring facts used by claims C6, C9, C10 -/

/-- A string starts with its own leading characters. -/
theorem startsWithL_self_append (p rest : PyStr) : startsWithL p (p ++ rest) = true := by
  induction p with
  | nil => rfl
  | cons c cs ih => simp [startsWithL, ih]

/-- A non-empty pattern occurs in any string that begins with it. -/
theorem containsL_self_append (p rest : PyStr) (hp : p ≠ []) :
    containsL (p ++ rest) p = true := by
  cases p with
  | nil => exact absurd rfl hp
  | cons c cs =>
    simp [containsL]
    exact Or.inl (startsWithL_self_append (c :: cs) rest)

/-- A pattern occurring in a suffix occurs in the whole string. -/
theorem containsL_append_left (pre s pat : PyStr) (h : containsL s pat = true) :
    containsL (pre ++ s) pat = true := by
  induction pre with
  | nil => simpa using h
  | cons c cs ih => simp [containsL, ih]

/-- The pipeline tag for image `i` contains the substring `image_i`, wherever
the tag sits inside a prompt — this is why the first branch of the tag logic
fires on prompts that already carry the tag. -/
theorem tag_contains_keyU (pre post : PyStr) (i : Nat) :
    containsL (pre ++ imgTag i ++ post) (keyU i) = true := by
  have hne : keyU i ≠ [] := by
    unfold keyU
    intro h
    have := congrArg List.length h
    simp [str] at this
  have h1 : containsL (keyU i ++ (str "|></img>" ++ post)) (keyU i) = true :=
    containsL_self_append _ _ hne
  have h2 := containsL_append_left (pre ++ str "<img><|") _ _ h1
  simpa [imgTag, List.append_assoc] using h2

/-! ### Claim C6 -/

/-- Counterexample to claim C6: with image 1 supplied and saved, a prompt that
is exactly the tag `<img><|image_1|></img>` is not left unchanged — the first
branch of the tag logic replaces the substring `image_1` inside it, producing
a nested tag. -/
theorem C6_counterexample :
    processPromptAndImages [some "p1.png", none, none]
        (str "<img><|image_1|></img>") [some 1, none, none] ⟨true, []⟩
      = Except.ok (str "<img><|<img><|image_1|></img>|></img>", ["p1.png"],
          ⟨true, ["p1.png"]⟩) ∧
    str "<img><|<img><|image_1|></img>|></img>" ≠ str "<img><|image_1|></img>" :=
  ⟨rfl, by decide⟩

/-- Claim C6 as amended: tag substitution is not idempotent. Because the tag
for image `i` contains the substring `image_i`, a prompt already carrying the
tag takes the first branch of the tag logic: every occurrence of `image_i` is
replaced by the full tag (nesting the existing one); no separate second tag is
appended. Stated for image 1 with the tag anywhere in the prompt. -/
theorem C6_amended_nesting (pre post : PyStr) (path : String) (a : Img) (tmp : TmpState) :
    processPromptAndImages [some path, none, none] (pre ++ imgTag 1 ++ post)
        [some a, none, none] tmp
      = Except.ok (stripL (replaceL (pre ++ imgTag 1 ++ post) (keyU 1) (imgTag 1)), [path],
          { tmp with files := tmp.files ++ [path] }) := by
  have hlen : (imgTag 1).length = 22 := by decide
  have hne : (pre ++ imgTag 1 ++ post).isEmpty = false := by
    cases hpre : pre ++ imgTag 1 ++ post with
    | nil =>
      exfalso
      have hl := congrArg List.length hpre
      rw [List.length_append, List.length_append, hlen] at hl
      simp at hl
    | cons c l => rfl
  have hk := tag_contains_keyU pre post 1
  generalize hP : pre ++ imgTag 1 ++ post = P at hne hk ⊢
  unfold processPromptAndImages
  simp [hne, hk, List.zip, List.zipWith, ppLoop, saveInputImg, tagStep]

/-! ### Claim C9 -/

/-- In the per-image loop, an image whose save failed is processed exactly as
an absent image: a loop entry `(some a, none)` behaves as `(none, none)`. -/
theorem ppLoop_skip_failed (l1 l2 : List (Option Img × Option String)) (a : Img) :
    ∀ (i : Nat) (prompt : PyStr) (paths : List String) (tmp : TmpState),
      ppLoop i (l1 ++ (some a, none) :: l2) prompt paths tmp
        = ppLoop i (l1 ++ (none, none) :: l2) prompt paths tmp := by
  induction l1 with
  | nil => intro i prompt paths tmp; rfl
  | cons hd tl ih =>
    intro i prompt paths tmp
    rcases hd with ⟨img, res⟩
    cases img with
    | none => simpa [ppLoop] using ih (i + 1) prompt paths tmp
    | some b =>
      cases res with
      | none => simpa [ppLoop, saveInputImg] using ih (i + 1) prompt paths tmp
      | some path =>
        simpa [ppLoop, saveInputImg] using
          ih (i + 1) (tagStep i prompt) (paths ++ [path])
            { tmp with files := tmp.files ++ [path] }

/-- Claim C9: `save_input_img` never raises — on any failure it returns `None`
— and `_process_prompt_and_images` then silently omits that image: the call
behaves exactly as if the failed image had not been supplied at all, so its
path is not appended to `input_images` and no tag for it is substituted into
or appended to the prompt. The non-empty-prompt hypothesis covers every
execution the claim quantifies over: with an empty prompt and any supplied
image, line 177 raises before `save_input_img` is ever called, so a save
failure can only occur on the non-empty-prompt path. -/
theorem C9_failed_save_silently_omitted
    (imgs1 imgs2 : List (Option Img)) (svs1 svs2 : List (Option String))
    (a : Img) (prompt : PyStr) (tmp : TmpState)
    (hlen : imgs1.length = svs1.length) (hp : prompt.isEmpty = false) :
    (∀ tmp', saveInputImg none tmp' = (none, tmp')) ∧
    processPromptAndImages (svs1 ++ none :: svs2) prompt (imgs1 ++ some a :: imgs2) tmp
      = processPromptAndImages (svs1 ++ none :: svs2) prompt (imgs1 ++ none :: imgs2) tmp := by
  refine ⟨fun tmp' => rfl, ?_⟩
  unfold processPromptAndImages
  simp only [hp, Bool.false_eq_true, if_false, Bool.false_and]
  rw [List.zip_append hlen, List.zip_append hlen, List.zip_cons_cons, List.zip_cons_cons,
    ppLoop_skip_failed]

/-- Witness for C9's theorem: a failed save of image 1 gives the same result
as omitting image 1. -/
theorem C9_failed_save_silently_omitted_witness :
    (∀ tmp', saveInputImg none tmp' = (none, tmp')) ∧
    processPromptAndImages [none, none, none] (str "hi") [some 1, none, none] ⟨false, []⟩
      = processPromptAndImages [none, none, none] (str "hi") [none, none, none] ⟨false, []⟩ :=
  C9_failed_save_silently_omitted [] [none, none] [] [none, none] 1 (str "hi")
    ⟨false, []⟩ rfl (by decide)

/-! ### Claim C4 -/

/-- No pipeline-call event is logged by the clearing step. -/
theorem pipeCall_not_in_clear (s : AdapterState) (mp : String) (fp : PyStr)
    (ii : Option (List String)) : Ev.pipeCall fp ii ∉ (clearIfMismatch s mp).2 := by
  rcases clearIfMismatch_cases s mp with hc | hc <;> rw [hc] <;> simp

/-- No pipeline-call event is logged by `_get_pipeline`. -/
theorem pipeCall_not_in_getPipeline (env : Env) (s : AdapterState) (fs : FS) (mp : String)
    (fp : PyStr) (ii : Option (List String)) :
    Ev.pipeCall fp ii ∉ (getPipeline env s fs mp).2.2 := by
  rcases getPipeline_cases env s fs mp with ⟨p, _, _, hg⟩ | ⟨e, hg⟩ | ⟨p, hg⟩ <;> rw [hg] <;> simp

/-- Along the per-image loop, every collected path is a file that exists in
`TMP_DIR`, and existing files are never removed. -/
theorem ppLoop_files (zipped : List (Option Img × Option String)) :
    ∀ (i : Nat) (prompt : PyStr) (paths : List String) (tmp : TmpState),
      (∀ p ∈ paths, p ∈ tmp.files) →
      (∀ p ∈ (ppLoop i zipped prompt paths tmp).2.1,
          p ∈ (ppLoop i zipped prompt paths tmp).2.2.files) ∧
      (∀ f ∈ tmp.files, f ∈ (ppLoop i zipped prompt paths tmp).2.2.files) := by
  induction zipped with
  | nil => intro i prompt paths tmp h; exact ⟨h, fun f hf => hf⟩
  | cons hd tl ih =>
    intro i prompt paths tmp h
    rcases hd with ⟨img, res⟩
    cases img with
    | none => simpa [ppLoop] using ih (i + 1) prompt paths tmp h
    | some a =>
      cases res with
      | none => simpa [ppLoop, saveInputImg] using ih (i + 1) prompt paths tmp h
      | some path =>
        have hpre : ∀ p ∈ paths ++ [path],
            p ∈ ({ tmp with files := tmp.files ++ [path] } : TmpState).files := by
          intro p hp
          rcases List.mem_append.1 hp with hp | hp
          · exact List.mem_append_left _ (h p hp)
          · simp at hp
            simp [hp]
        have hih := ih (i + 1) (tagStep i prompt) (paths ++ [path])
          { tmp with files := tmp.files ++ [path] } hpre
        refine ⟨fun p hp => ?_, fun f hf => ?_⟩
        · have hres := hih.1 p (by simpa [ppLoop, saveInputImg] using hp)
          simpa [ppLoop, saveInputImg] using hres
        · have hres := hih.2 f (List.mem_append_left _ hf)
          simpa [ppLoop, saveInputImg] using hres

/-- Every input-image path returned by `_process_prompt_and_images` (when it
returns at all) is a file that exists in `TMP_DIR` afterwards. -/
theorem processPrompt_paths_in_files (saves : List (Option String)) (prompt0 : PyStr)
    (images : List (Option Img)) (tmp : TmpState) (r : PyStr × List String × TmpState)
    (h : processPromptAndImages saves prompt0 images tmp = Except.ok r) :
    ∀ p ∈ r.2.1, p ∈ r.2.2.files := by
  unfold processPromptAndImages at h
  split at h
  · simp at h
  · have h2 := Except.ok.inj h
    subst h2
    dsimp only
    exact (ppLoop_files (images.zip saves) 1 _ [] tmp (by simp)).1

/-- Counterexample to claim C4: a successful `generation` call with one input
image returns with the saved image file still existing in `TMP_DIR` — only the
per-call directory is removed, while `save_input_img` writes directly into
`TMP_DIR`, outside that directory. -/
theorem C4_counterexample :
    (generation envOk presets0 "None" "FP16" (str "hi") (some 1) none none
        ⟨true, true⟩ initialAdapter ⟨false, []⟩).output = Except.ok 99 ∧
    (generation envOk presets0 "None" "FP16" (str "hi") (some 1) none none
        ⟨true, true⟩ initialAdapter ⟨false, []⟩).tmp = ⟨false, ["in1.png"]⟩ := ⟨rfl, rfl⟩

/-- Claim C4 as amended: by the time `generation` returns (normally or with an
exception) the per-call temporary directory has been deleted, but the saved
input-image files have not: every path handed to the pipeline still exists in
`TMP_DIR` when the call returns. -/
theorem C4_amended_temp_lifecycle (env : Env) (presets : List (String × PyStr))
    (pp mp0 : String) (prompt : PyStr) (i1 i2 i3 : Option Img)
    (fs : FS) (s : AdapterState) (tmp : TmpState) :
    (generation env presets pp mp0 prompt i1 i2 i3 fs s tmp).tmp.tempDirLive = false ∧
    (∀ fp ii, Ev.pipeCall fp (some ii) ∈ (generation env presets pp mp0 prompt i1 i2 i3 fs s tmp).log →
        ∀ p ∈ ii, p ∈ (generation env presets pp mp0 prompt i1 i2 i3 fs s tmp).tmp.files) := by
  unfold generation generationBody
  dsimp only
  split
  · refine ⟨rfl, fun fp ii hmem p hp => absurd hmem ?_⟩
    intro hmem
    rcases List.mem_append.1 hmem with h1 | h1
    · rcases List.mem_cons.1 h1 with h2 | h2
      · cases h2
      · exact pipeCall_not_in_clear s _ fp (some ii) h2
    · simp at h1
  · rename_i workPrompt heqw
    split
    · rename_i e s2 log3 heq
      refine ⟨rfl, fun fp ii hmem p hp => absurd hmem ?_⟩
      intro hmem
      have hgl := pipeCall_not_in_getPipeline env
        (clearIfMismatch s (resolvePrecision env mp0)).1 fs (resolvePrecision env mp0)
        fp (some ii)
      rw [heq] at hgl
      rcases List.mem_append.1 hmem with h1 | h1
      · rcases List.mem_append.1 h1 with h2 | h2
        · rcases List.mem_cons.1 h2 with h3 | h3
          · cases h3
          · exact pipeCall_not_in_clear s _ fp (some ii) h3
        · exact hgl h2
      · simp at h1
    · rename_i pipe s2 log3 heq
      split
      · rename_i e3 heqp
        refine ⟨rfl, fun fp ii hmem p hp => absurd hmem ?_⟩
        intro hmem
        have hgl := pipeCall_not_in_getPipeline env
          (clearIfMismatch s (resolvePrecision env mp0)).1 fs (resolvePrecision env mp0)
          fp (some ii)
        rw [heq] at hgl
        rcases List.mem_append.1 hmem with h1 | h1
        · rcases List.mem_append.1 h1 with h2 | h2
          · rcases List.mem_cons.1 h2 with h3 | h3
            · cases h3
            · exact pipeCall_not_in_clear s _ fp (some ii) h3
          · exact hgl h2
        · simp at h1
      · rename_i pr heqp
        split <;> rename_i hpr
        all_goals {
          refine ⟨rfl, fun fp ii hmem p hp => ?_⟩
          have hgl := pipeCall_not_in_getPipeline env
            (clearIfMismatch s (resolvePrecision env mp0)).1 fs (resolvePrecision env mp0)
            fp (some ii)
          rw [heq] at hgl
          rcases List.mem_append.1 hmem with h1 | h1
          · rcases List.mem_append.1 h1 with h2 | h2
            · rcases List.mem_append.1 h2 with h3 | h3
              · rcases List.mem_cons.1 h3 with h4 | h4
                · cases h4
                · exact absurd h4 (pipeCall_not_in_clear s _ fp (some ii))
              · exact absurd h3 hgl
            · simp at h2
              obtain ⟨hfp, hne2, rfl⟩ := h2
              exact processPrompt_paths_in_files [env.save1, env.save2, env.save3]
                workPrompt [i1, i2, i3] { tempDirLive := true, files := tmp.files } pr heqp p hp
          · simp at h1
        }

/-- Witness for C4's amended theorem: the concrete saved path from the
counterexample run indeed persists. -/
theorem C4_amended_temp_lifecycle_witness :
    ∀ p ∈ ["in1.png"], p ∈ (generation envOk presets0 "None" "FP16" (str "hi")
      (some 1) none none ⟨true, true⟩ initialAdapter ⟨false, []⟩).tmp.files :=
  (C4_amended_temp_lifecycle envOk presets0 "None" "FP16" (str "hi")
      (some 1) none none ⟨true, true⟩ initialAdapter ⟨false, []⟩).2
    (str "hi <img><|image_1|></img>") ["in1.png"] (by decide)

/-! ### Claim C7 -/

/-- Claim C7: `generation` never converts an inner failure into a normal
return, and it re-raises the inner exception unchanged: a normal return
carries exactly the pipeline call's result, and an exception is verbatim one
of the inner failure sources (preset lookup, `_get_pipeline`, the
prompt/image preprocessing — e.g. the tensor-truthiness RuntimeError of
line 177 — or the pipeline call). -/
theorem C7_error_propagation (env : Env) (presets : List (String × PyStr))
    (pp mp0 : String) (prompt : PyStr) (i1 i2 i3 : Option Img)
    (fs : FS) (s : AdapterState) (tmp : TmpState) :
    (∀ v, (generation env presets pp mp0 prompt i1 i2 i3 fs s tmp).output = Except.ok v →
        env.pipeResult = Except.ok v) ∧
    (∀ e, (generation env presets pp mp0 prompt i1 i2 i3 fs s tmp).output = Except.error e →
        ((stripL prompt).isEmpty = true ∧ lookupPreset presets pp = Except.error e) ∨
        (∃ s2 l, getPipeline env (clearIfMismatch s (resolvePrecision env mp0)).1 fs
            (resolvePrecision env mp0) = (Except.error e, s2, l)) ∨
        (∃ wp, (if (stripL prompt).isEmpty = false then Except.ok (stripL prompt)
            else lookupPreset presets pp) = Except.ok wp ∧
          processPromptAndImages [env.save1, env.save2, env.save3] wp [i1, i2, i3]
            ⟨true, tmp.files⟩ = Except.error e) ∨
        env.pipeResult = Except.error e) := by
  unfold generation generationBody
  dsimp only
  split
  · rename_i e0 heq
    constructor
    · intro v hv
      simp at hv
    · intro e he
      simp at he
      subst he
      left
      by_cases hie : (stripL prompt).isEmpty = false
      · rw [if_pos hie] at heq
        cases heq
      · rw [if_neg hie] at heq
        exact ⟨by simpa using hie, heq⟩
  · rename_i workPrompt heqw
    split
    · rename_i e2 s2 log3 heq2
      constructor
      · intro v hv
        simp at hv
      · intro e he
        simp at he
        subst he
        exact Or.inr (Or.inl ⟨s2, log3, heq2⟩)
    · rename_i pipe s2 log3 heq2
      split
      · rename_i e3 heqp
        constructor
        · intro v hv
          simp at hv
        · intro e he
          simp at he
          subst he
          exact Or.inr (Or.inr (Or.inl ⟨workPrompt, heqw, heqp⟩))
      · rename_i pr heqp
        split
        · rename_i out hout
          constructor
          · intro v hv
            simp at hv
            subst hv
            exact hout
          · intro e he
            simp at he
        · rename_i e2 hout
          constructor
          · intro v hv
            simp at hv
          · intro e he
            simp at he
            subst he
            exact Or.inr (Or.inr (Or.inr hout))

/-- Witness for C7: with a failing pipeline call, `generation` raises exactly
that exception. -/
theorem C7_error_propagation_witness :
    (generation envBoom presets0 "None" "FP16" (str "hi") none none none
        ⟨true, true⟩ initialAdapter ⟨false, []⟩).output = Except.error "boom" ∧
    (((stripL (str "hi")).isEmpty = true ∧ lookupPreset presets0 "None" = Except.error "boom") ∨
      (∃ s2 l, getPipeline envBoom
          (clearIfMismatch initialAdapter (resolvePrecision envBoom "FP16")).1
          ⟨true, true⟩ (resolvePrecision envBoom "FP16") = (Except.error "boom", s2, l)) ∨
      (∃ wp, (if (stripL (str "hi")).isEmpty = false then Except.ok (stripL (str "hi"))
          else lookupPreset presets0 "None") = Except.ok wp ∧
        processPromptAndImages [envBoom.save1, envBoom.save2, envBoom.save3] wp
          [none, none, none] ⟨true, []⟩ = Except.error "boom") ∨
      envBoom.pipeResult = Except.error "boom") :=
  ⟨rfl, (C7_error_propagation envBoom presets0 "None" "FP16" (str "hi") none none none
      ⟨true, true⟩ initialAdapter ⟨false, []⟩).2 "boom" rfl⟩

/-! ### Claim C3 -/

/-- Any `construct` event logged by `_get_pipeline` carries the precision the
call was made with. -/
theorem construct_in_getPipeline (env : Env) (s : AdapterState) (fs : FS) (mp p' : String)
    (h : Ev.construct p' ∈ (getPipeline env s fs mp).2.2) : p' = mp := by
  rcases getPipeline_cases env s fs mp with ⟨p, _, _, hg⟩ | ⟨e, hg⟩ | ⟨p, hg⟩ <;>
    rw [hg] at h <;> simpa using h

/-- Claim C3: when the resolved precision differs from the cached one,
`generation` clears both cache attributes and empties the device cache before
anything else (in particular before any pipeline construction, which can only
be for the new precision); when the resolved precision matches, the cached
instance is reused with no clearing, no cache emptying, no construction, and
the attributes unchanged. -/
theorem C3_precision_switch (env : Env) (presets : List (String × PyStr))
    (pp mp0 : String) (prompt : PyStr) (i1 i2 i3 : Option Img)
    (fs : FS) (s : AdapterState) (tmp : TmpState) (pipe : Pipe) (q : String) :
    (s.modelInstance = some pipe → s.currentPrecision = some q →
        q ≠ resolvePrecision env mp0 →
        ∃ rest, (generation env presets pp mp0 prompt i1 i2 i3 fs s tmp).log
            = [Ev.setupTmp, Ev.clearInstance, Ev.emptyCache] ++ rest ∧
          (∀ p', Ev.construct p' ∈ (generation env presets pp mp0 prompt i1 i2 i3 fs s tmp).log →
              p' = resolvePrecision env mp0)) ∧
    (s.modelInstance = some pipe → s.currentPrecision = some (resolvePrecision env mp0) →
        Ev.clearInstance ∉ (generation env presets pp mp0 prompt i1 i2 i3 fs s tmp).log ∧
        Ev.emptyCache ∉ (generation env presets pp mp0 prompt i1 i2 i3 fs s tmp).log ∧
        (∀ p', Ev.construct p' ∉ (generation env presets pp mp0 prompt i1 i2 i3 fs s tmp).log) ∧
        (generation env presets pp mp0 prompt i1 i2 i3 fs s tmp).adapter = s) := by
  constructor
  · intro hmi hcp hne
    have hcl : clearIfMismatch s (resolvePrecision env mp0)
        = (⟨none, none⟩, [Ev.clearInstance, Ev.emptyCache]) := by
      unfold clearIfMismatch
      rw [hmi, hcp]
      simp [hne]
    have hcons : ∀ p', Ev.construct p'
        ∈ (getPipeline env (⟨none, none⟩ : AdapterState) fs (resolvePrecision env mp0)).2.2 →
        p' = resolvePrecision env mp0 :=
      fun p' hp' => construct_in_getPipeline env ⟨none, none⟩ fs (resolvePrecision env mp0) p' hp'
    unfold generation generationBody
    dsimp only
    rw [hcl]
    dsimp only
    split
    · refine ⟨_, rfl, fun p' hp' => ?_⟩
      simp at hp'
    · rename_i workPrompt heqw
      split
      · rename_i e2 s2 log3 heq2
        refine ⟨_, rfl, fun p' hp' => ?_⟩
        have hc := hcons p'
        rw [heq2] at hc
        simp at hp' hc
        exact hc hp'
      · rename_i pipe2 s2 log3 heq2
        split
        all_goals try split
        all_goals {
          refine ⟨_, rfl, fun p' hp' => ?_⟩
          have hc := hcons p'
          rw [heq2] at hc
          simp at hp' hc
          exact hc hp'
        }
  · intro hmi hcp
    have hcl : clearIfMismatch s (resolvePrecision env mp0) = (s, []) := by
      unfold clearIfMismatch
      rw [hmi, hcp]
      simp
    have hg : getPipeline env s fs (resolvePrecision env mp0)
        = (Except.ok pipe, s, [Ev.cacheHit]) := by
      unfold getPipeline
      rw [hmi, hcp]
      simp
    unfold generation generationBody
    dsimp only
    rw [hcl]
    dsimp only
    rw [hg]
    split
    · exact ⟨by simp, by simp, fun p' => by simp, rfl⟩
    · dsimp only
      split
      all_goals try split
      all_goals exact ⟨by simp, by simp, fun p' => by simp, rfl⟩

/-- Witness for C3: a concrete FP16→FP8 switch clears before constructing, and
a concrete FP16→FP16 call reuses the cache untouched. -/
theorem C3_precision_switch_witness :
    (∃ rest, (generation envOk presets0 "None" "FP8" (str "hi") none none none
        ⟨true, true⟩ ⟨some 7, some "FP16"⟩ ⟨false, []⟩).log
          = [Ev.setupTmp, Ev.clearInstance, Ev.emptyCache] ++ rest ∧
        (∀ p', Ev.construct p' ∈ (generation envOk presets0 "None" "FP8" (str "hi") none none none
            ⟨true, true⟩ ⟨some 7, some "FP16"⟩ ⟨false, []⟩).log →
            p' = resolvePrecision envOk "FP8")) ∧
    (Ev.clearInstance ∉ (generation envOk presets0 "None" "FP16" (str "hi") none none none
        ⟨true, true⟩ ⟨some 7, some "FP16"⟩ ⟨false, []⟩).log ∧
      Ev.emptyCache ∉ (generation envOk presets0 "None" "FP16" (str "hi") none none none
        ⟨true, true⟩ ⟨some 7, some "FP16"⟩ ⟨false, []⟩).log ∧
      (∀ p', Ev.construct p' ∉ (generation envOk presets0 "None" "FP16" (str "hi") none none none
        ⟨true, true⟩ ⟨some 7, some "FP16"⟩ ⟨false, []⟩).log) ∧
      (generation envOk presets0 "None" "FP16" (str "hi") none none none
        ⟨true, true⟩ ⟨some 7, some "FP16"⟩ ⟨false, []⟩).adapter = ⟨some 7, some "FP16"⟩) :=
  ⟨(C3_precision_switch envOk presets0 "None" "FP8" (str "hi") none none none
      ⟨true, true⟩ ⟨some 7, some "FP16"⟩ ⟨false, []⟩ 7 "FP16").1 rfl rfl (by decide),
   (C3_precision_switch envOk presets0 "None" "FP16" (str "hi") none none none
      ⟨true, true⟩ ⟨some 7, some "FP16"⟩ ⟨false, []⟩ 7 "FP16").2 rfl rfl⟩

/-! ### Claim C10 -/

/-- With an empty prompt and a supplied tensor image, line 177's
`any(images)` raises before any save or tag work happens. -/
theorem processPrompt_empty_raises (saves : List (Option String)) (a : Img)
    (i2 i3 : Option Img) (tmp : TmpState) :
    processPromptAndImages saves [] [some a, i2, i3] tmp
      = Except.error "Boolean value of Tensor with more than one element is ambiguous" := rfl

/-- Counterexample to claim C10: with an empty prompt, the "None" preset
mapping to the empty string, and image 1 supplied, `generation` raises the
tensor-truthiness RuntimeError from line 177 and the pipeline is never
called — the log has no pipeline-call event, so no prompt at all (let alone
the tag concatenation the claim asserts) is passed to the pipeline. -/
theorem C10_counterexample :
    (generation envOk presets0 "None" "FP16" [] (some 1) none none
        ⟨true, true⟩ initialAdapter ⟨false, []⟩).output
      = Except.error "Boolean value of Tensor with more than one element is ambiguous" ∧
    (generation envOk presets0 "None" "FP16" [] (some 1) none none
        ⟨true, true⟩ initialAdapter ⟨false, []⟩).log
      = [Ev.setupTmp, Ev.construct "FP16", Ev.cleanupTmp] :=
  ⟨rfl, by decide⟩

/-- Claim C10 as amended: under the claim's conditions (prompt empty after
stripping, selected preset value empty, an image supplied), generation does
not pass any prompt to the pipeline: evaluating `any(images)` calls `bool()`
on the supplied tensor and raises RuntimeError, which generation re-raises —
the call ends in an exception and its log contains no pipeline-call event.
Stated with the supplied image in slot 1 and arbitrary further images. -/
theorem C10_amended_empty_prompt_raises (env : Env) (presets : List (String × PyStr))
    (pp mp0 : String) (prompt : PyStr) (a : Img) (i2 i3 : Option Img)
    (fs : FS) (s : AdapterState) (tmp : TmpState)
    (h1 : (stripL prompt).isEmpty = true)
    (h2 : lookupPreset presets pp = Except.ok []) :
    (∃ e, (generation env presets pp mp0 prompt (some a) i2 i3 fs s tmp).output
        = Except.error e) ∧
    (∀ fp ii, Ev.pipeCall fp ii
        ∉ (generation env presets pp mp0 prompt (some a) i2 i3 fs s tmp).log) := by
  unfold generation generationBody
  dsimp only
  rw [if_neg (by simp [h1]), h2]
  dsimp only
  rw [processPrompt_empty_raises [env.save1, env.save2, env.save3] a i2 i3
    ⟨true, tmp.files⟩]
  rcases hsplit : getPipeline env (clearIfMismatch s (resolvePrecision env mp0)).1 fs
      (resolvePrecision env mp0) with ⟨r1, s2, log3⟩
  cases r1 with
  | error e =>
    dsimp only
    refine ⟨⟨e, rfl⟩, fun fp ii hmem => ?_⟩
    have hg2 := pipeCall_not_in_getPipeline env
      (clearIfMismatch s (resolvePrecision env mp0)).1 fs (resolvePrecision env mp0) fp ii
    rw [hsplit] at hg2
    rcases List.mem_append.1 hmem with h4 | h4
    · rcases List.mem_cons.1 h4 with h5 | h5
      · cases h5
      · rcases List.mem_append.1 h5 with h6 | h6
        · exact pipeCall_not_in_clear s _ fp ii h6
        · exact hg2 h6
    · simp at h4
  | ok pipe =>
    dsimp only
    refine ⟨⟨_, rfl⟩, fun fp ii hmem => ?_⟩
    have hg2 := pipeCall_not_in_getPipeline env
      (clearIfMismatch s (resolvePrecision env mp0)).1 fs (resolvePrecision env mp0) fp ii
    rw [hsplit] at hg2
    rcases List.mem_append.1 hmem with h4 | h4
    · rcases List.mem_cons.1 h4 with h5 | h5
      · cases h5
      · rcases List.mem_append.1 h5 with h6 | h6
        · exact pipeCall_not_in_clear s _ fp ii h6
        · exact hg2 h6
    · simp at h4

/-- Witness for C10's amended theorem at the counterexample's concrete run. -/
theorem C10_amended_empty_prompt_raises_witness :
    (∃ e, (generation envOk presets0 "None" "FP16" [] (some 1) none none
        ⟨true, true⟩ initialAdapter ⟨false, []⟩).output = Except.error e) ∧
    (∀ fp ii, Ev.pipeCall fp ii ∉ (generation envOk presets0 "None" "FP16" [] (some 1)
        none none ⟨true, true⟩ initialAdapter ⟨false, []⟩).log) :=
  C10_amended_empty_prompt_raises envOk presets0 "None" "FP16" [] 1 none none
    ⟨true, true⟩ initialAdapter ⟨false, []⟩ (by decide) rfl
